import Mathlib

/-!
# The `completion` sub-command of medusa (`cmd/completion.go`)

A shallow embedding of the argument validator `cmdValidateCompletionArgs`, the
dispatcher `cmdRunCompletion` and the two-step flow of `completionCmd`, followed by
the properties of the specification proved about them.

Go values are embedded as follows.

* `[]string` is `List String`; `args[0]` is the bounds-checked `args[0]?`, whose
  failure is the Go run-time panic.
* An `error` is a `GoError` carrying its message; `nil` is `none`.
* The effects of the code (calls to the logger, calls to the generators of the root
  command, bytes written to the standard streams) are recorded in a `World` that every
  function threads through.
* A function either returns or panics: `Outcome`.
-/

namespace Medusa

/-! ## Data model -/

/-- A Go `error` value, as produced by `fmt.Errorf` without a wrapping verb: it is
determined by its message. -/
structure GoError where
  /-- The text returned by the method `Error()`. -/
  msg : String
  deriving DecidableEq, Repr

/-- The streams of package `os` a generator can be asked to write to. -/
inductive Writer where
  | Stdout
  | Stderr
  deriving DecidableEq, Repr

/-- Modelled from the spec: severities of the logging collaborator (`cmdLogger`, declared
outside `cmd/completion.go`): `error(message, err)` and the fatal `panic(message, err)`,
the latter being the highest severity. -/
inductive Severity where
  | Error
  | Panic
  deriving DecidableEq, Repr

/-- Modelled from the spec: the order of the logger severities, `Panic` being the
highest. -/
def Severity.rank : Severity → Nat
  | .Error => 0
  | .Panic => 1

/-- One call to the logger: severity, message and the attached error. -/
structure LogEntry where
  severity : Severity
  message : String
  err : GoError
  deriving DecidableEq, Repr

/-- One call to a completion generator of the root command, with the arguments the
caller passed. -/
inductive GenCall where
  | GenBashCompletionV2 (out : Writer) (includeDesc : Bool)
  | GenZshCompletion (out : Writer)
  | GenPowerShellCompletionWithDesc (out : Writer)
  deriving DecidableEq, Repr

/-- The observable state of the process: what has been written to the standard
streams, the logger calls and the generator calls made so far, oldest first. -/
structure World where
  stdout : String
  stderr : String
  log : List LogEntry
  calls : List GenCall
  deriving DecidableEq, Repr

/-- The value a Go panic carries. -/
inductive PanicValue where
  /-- The run-time error `index out of range [i] with length n`. -/
  | indexOutOfRange (i n : Nat)
  /-- The panic raised by the logger after it logged at panic severity. -/
  | logged (message : String) (err : GoError)
  deriving DecidableEq, Repr

/-- How a Go function of result type `error` ends: it returns an error (or `nil`), or
it panics. -/
inductive Outcome where
  | returned (err : Option GoError)
  | panicked (v : PanicValue)
  deriving DecidableEq, Repr

/-- The completion generators of the root command (`cmd.Root()`), owned by the cobra
framework and taken as parameters: each yields the text it writes and its result, and may
depend on the state of the process it runs in. -/
structure Command where
  GenBashCompletionV2 : World → Bool → String × Option GoError
  GenZshCompletion : World → String × Option GoError
  GenPowerShellCompletionWithDesc : World → String × Option GoError

/-- Appends `s` to the stream `out`. -/
def World.write (w : World) (out : Writer) (s : String) : World :=
  match out with
  | .Stdout => { w with stdout := w.stdout ++ s }
  | .Stderr => { w with stderr := w.stderr ++ s }

/-- What the generator named by the call `c` yields in the world `w`. -/
def Command.generate (root : Command) (w : World) : GenCall → String × Option GoError
  | .GenBashCompletionV2 _ includeDesc => root.GenBashCompletionV2 w includeDesc
  | .GenZshCompletion _ => root.GenZshCompletion w
  | .GenPowerShellCompletionWithDesc _ => root.GenPowerShellCompletionWithDesc w

/-- The stream a generator call writes to. -/
def GenCall.out : GenCall → Writer
  | .GenBashCompletionV2 out _ => out
  | .GenZshCompletion out => out
  | .GenPowerShellCompletionWithDesc out => out

/-- Performs the generator call `c` on the root command: the call is recorded, the text
is written to the stream given in the call, the generator's result is handed back. -/
def Command.invoke (root : Command) (c : GenCall) (w : World) : Option GoError × World :=
  let r := root.generate w c
  (r.2, { w.write c.out r.1 with calls := w.calls ++ [c] })

/-! ## The logger -/

/-- Modelled from the spec: `cmdLogger.Error(message, err)`, declared outside
`cmd/completion.go`; it records one entry at error severity in the log, which is kept
apart from the standard streams, and returns. -/
def cmdLogger.Error (message : String) (err : GoError) (w : World) : World :=
  { w with log := w.log ++ [⟨Severity.Error, message, err⟩] }

/-- Modelled from the spec: `cmdLogger.Panic(message, err)`, declared outside
`cmd/completion.go`; it records one entry at panic severity in the log and halts the
command with a panic instead of returning. -/
def cmdLogger.Panic (message : String) (err : GoError) (w : World) : PanicValue × World :=
  (PanicValue.logged message err, { w with log := w.log ++ [⟨Severity.Panic, message, err⟩] })

/-! ## The code of `cmd/completion.go` -/

/-- The names of the supported shells: `var supportedShells`. -/
def supportedShells : List String := ["bash", "zsh", "powershell"]

/-- Modelled from the spec: the validator `cobra.ExactArgs(n)` of the cobra framework
(outside this repository): an error unless there are exactly `n` arguments. The text of its
error is the framework's; the caller replaces it. -/
def ExactArgs (n : Nat) (args : List String) : Option GoError :=
  if args.length ≠ n then
    some ⟨"accepts " ++ toString n ++ " arg(s), received " ++ toString args.length⟩
  else
    none

/-- The function `cmdValidateCompletionArgs`: validates the CLI arguments. -/
def cmdValidateCompletionArgs (args : List String) (w : World) : Outcome × World :=
  -- Make sure we have exactly 1 argument
  match ExactArgs 1 args with
  | some _ =>
    let err : GoError :=
      ⟨"completion requires only 1 shell argument (options: "
        ++ String.intercalate ", " supportedShells ++ ")"⟩
    let w := cmdLogger.Error "Failed to validate args for completion command" err w
    (Outcome.returned (some err), w)
  | none =>
    -- Make sure that the shell is a supported type
    match args[0]? with
    | none => (Outcome.panicked (PanicValue.indexOutOfRange 0 args.length), w)
    | some shell =>
      if !(supportedShells.contains shell) then
        let err : GoError := ⟨shell ++ " is not a supported shell"⟩
        let w := cmdLogger.Error "Failed to validate args for completion command" err w
        (Outcome.returned (some err), w)
      else
        (Outcome.returned none, w)

/-- The function `cmdRunCompletion`: executes the completion CLI command on the root
command `root`. -/
def cmdRunCompletion (root : Command) (args : List String) (w : World) : Outcome × World :=
  match args[0]? with
  | none => (Outcome.panicked (PanicValue.indexOutOfRange 0 args.length), w)
  | some shell =>
    let dispatched : Except PanicValue (Option GoError) × World :=
      if shell = "bash" then
        let r := root.invoke (GenCall.GenBashCompletionV2 Writer.Stdout true) w
        (Except.ok r.1, r.2)
      else if shell = "zsh" then
        let r := root.invoke (GenCall.GenZshCompletion Writer.Stdout) w
        (Except.ok r.1, r.2)
      else if shell = "powershell" then
        let r := root.invoke (GenCall.GenPowerShellCompletionWithDesc Writer.Stdout) w
        (Except.ok r.1, r.2)
      else
        let r := cmdLogger.Panic "Failed to run the completion command"
          ⟨shell ++ " is not a supported shell type"⟩ w
        (Except.error r.1, r.2)
    match dispatched with
    | (Except.error v, w) => (Outcome.panicked v, w)
    | (Except.ok err, w) =>
      -- Log an error if we encountered one
      match err with
      | some e =>
        (Outcome.returned err, cmdLogger.Error "Failed to run the completion command" e w)
      | none => (Outcome.returned err, w)

/-- Modelled from the spec: the two-step flow in which the cobra framework (outside this
repository) runs `completionCmd`: the `Args` validator first, and the `RunE` function
only when the validator returned `nil`; a failed validation is the result of the
command. -/
def completionCmd.execute (root : Command) (args : List String) (w : World) :
    Outcome × World :=
  match cmdValidateCompletionArgs args w with
  | (Outcome.returned none, w) => cmdRunCompletion root args w
  | failed => failed

/-! ## Auxiliary definitions used to state the properties -/

/-- The argument-count error of `cmdValidateCompletionArgs`, written out. -/
def argumentCountError : GoError :=
  ⟨"completion requires only 1 shell argument (options: bash, zsh, powershell)"⟩

/-- A root command whose generators ignore the state of the process they run in: they
are functions of the command tree (and of their arguments) only. -/
def Command.Deterministic (root : Command) : Prop :=
  (∀ w w' d, root.GenBashCompletionV2 w d = root.GenBashCompletionV2 w' d) ∧
  (∀ w w', root.GenZshCompletion w = root.GenZshCompletion w') ∧
  (∀ w w', root.GenPowerShellCompletionWithDesc w = root.GenPowerShellCompletionWithDesc w')

/-- A sample root command: every generator writes a fixed script and succeeds. -/
def sampleRoot : Command where
  GenBashCompletionV2 := fun _ d => (if d then "# bash completion V2 (desc)" else "# bash completion V2", none)
  GenZshCompletion := fun _ => ("#compdef medusa", none)
  GenPowerShellCompletionWithDesc := fun _ => ("# powershell completion", none)

/-- What `cmdRunCompletion` does with the result of the generator it invoked: an error
is logged once at error severity, and the result is returned as it is. -/
def logAndReturn (r : Option GoError × World) : Outcome × World :=
  match r.1 with
  | some e =>
    (Outcome.returned (some e), cmdLogger.Error "Failed to run the completion command" e r.2)
  | none => (Outcome.returned none, r.2)

/-- The run of `cmdRunCompletion` on `args` from `w` made the generator call `c` once,
returned the result of that call unchanged, and logged it, once and at error severity,
exactly when it is an error. -/
def PropagatesResult (root : Command) (args : List String) (w : World) (c : GenCall) :
    Prop :=
  (cmdRunCompletion root args w).1 = Outcome.returned (root.generate w c).2 ∧
  (cmdRunCompletion root args w).2.calls = w.calls ++ [c] ∧
  (cmdRunCompletion root args w).2.log = w.log ++
    (match (root.generate w c).2 with
      | some e => [⟨Severity.Error, "Failed to run the completion command", e⟩]
      | none => [])

/-- The state of a process that has done nothing yet. -/
def World.initial : World := ⟨"", "", [], []⟩

/-! ## Properties -/

theorem ExactArgs_one (args : List String) :
    ExactArgs 1 args = none ↔ args.length = 1 := by
  unfold ExactArgs
  by_cases h : args.length = 1 <;> simp [h]

theorem argumentCountError_eq :
    (⟨"completion requires only 1 shell argument (options: "
        ++ String.intercalate ", " supportedShells ++ ")"⟩ : GoError) = argumentCountError := by
  decide

theorem validate_of_length_ne (args : List String) (w : World) (h : args.length ≠ 1) :
    cmdValidateCompletionArgs args w =
      (Outcome.returned (some argumentCountError),
        cmdLogger.Error "Failed to validate args for completion command" argumentCountError w) := by
  have hx : ExactArgs 1 args =
      some ⟨"accepts " ++ toString 1 ++ " arg(s), received " ++ toString args.length⟩ := by
    unfold ExactArgs
    simp [h]
  unfold cmdValidateCompletionArgs
  rw [hx]
  simp only [argumentCountError_eq]

theorem validate_of_unsupported (s : String) (w : World)
    (h : ¬ (s = "bash" ∨ s = "zsh" ∨ s = "powershell")) :
    cmdValidateCompletionArgs [s] w =
      (Outcome.returned (some ⟨s ++ " is not a supported shell"⟩),
        cmdLogger.Error "Failed to validate args for completion command"
          ⟨s ++ " is not a supported shell"⟩ w) := by
  have hx : ExactArgs 1 [s] = none := (ExactArgs_one [s]).2 rfl
  have hc : s ∉ supportedShells := by
    simpa [supportedShells] using h
  unfold cmdValidateCompletionArgs
  rw [hx]
  simp [hc]

theorem validate_of_supported (s : String) (w : World)
    (h : s = "bash" ∨ s = "zsh" ∨ s = "powershell") :
    cmdValidateCompletionArgs [s] w = (Outcome.returned none, w) := by
  have hx : ExactArgs 1 [s] = none := (ExactArgs_one [s]).2 rfl
  have hc : s ∈ supportedShells := by
    simpa [supportedShells] using h
  unfold cmdValidateCompletionArgs
  rw [hx]
  simp [hc]

theorem length_eq_one_cases (args : List String) (h : args.length = 1) : ∃ s, args = [s] := by
  match args, h with
  | [s], _ => exact ⟨s, rfl⟩

/-- The result of validation is `nil` exactly on the one-element sequences holding a
supported shell name. -/
theorem validate_returned_none_iff (args : List String) (w : World) :
    (cmdValidateCompletionArgs args w).1 = Outcome.returned none ↔
      ∃ s, args = [s] ∧ (s = "bash" ∨ s = "zsh" ∨ s = "powershell") := by
  constructor
  · intro h
    by_cases hl : args.length = 1
    · obtain ⟨s, rfl⟩ := length_eq_one_cases args hl
      by_cases hs : s = "bash" ∨ s = "zsh" ∨ s = "powershell"
      · exact ⟨s, rfl, hs⟩
      · rw [validate_of_unsupported s w hs] at h
        simp at h
    · rw [validate_of_length_ne args w hl] at h
      simp at h
  · rintro ⟨s, rfl, hs⟩
    rw [validate_of_supported s w hs]

/-- Validation never panics: it returns `nil` or an error. -/
theorem validate_returns (args : List String) (w : World) :
    ∃ r, (cmdValidateCompletionArgs args w).1 = Outcome.returned r := by
  by_cases hl : args.length = 1
  · obtain ⟨s, rfl⟩ := length_eq_one_cases args hl
    by_cases hs : s = "bash" ∨ s = "zsh" ∨ s = "powershell"
    · exact ⟨none, by rw [validate_of_supported s w hs]⟩
    · exact ⟨_, by rw [validate_of_unsupported s w hs]⟩
  · exact ⟨_, by rw [validate_of_length_ne args w hl]⟩

/-- C1: `cmdValidateCompletionArgs` returns `nil` if and only if `args` has exactly one
element and that element is exactly `bash`, `zsh` or `powershell`; on every other
argument sequence it returns a non-nil error, in particular on `["Bash"]`, `[""]`,
`[" bash"]`, `[]` and on sequences of two elements. -/
theorem C1_validate_accepts_iff (args : List String) (w : World) :
    ((cmdValidateCompletionArgs args w).1 = Outcome.returned none ↔
      ∃ s, args = [s] ∧ (s = "bash" ∨ s = "zsh" ∨ s = "powershell")) ∧
    ((∃ e, (cmdValidateCompletionArgs args w).1 = Outcome.returned (some e)) ↔
      ¬ ∃ s, args = [s] ∧ (s = "bash" ∨ s = "zsh" ∨ s = "powershell")) ∧
    (∃ e, (cmdValidateCompletionArgs ["Bash"] w).1 = Outcome.returned (some e)) ∧
    (∃ e, (cmdValidateCompletionArgs [""] w).1 = Outcome.returned (some e)) ∧
    (∃ e, (cmdValidateCompletionArgs [" bash"] w).1 = Outcome.returned (some e)) ∧
    (∃ e, (cmdValidateCompletionArgs [] w).1 = Outcome.returned (some e)) ∧
    (∃ e, (cmdValidateCompletionArgs ["bash", "zsh"] w).1 = Outcome.returned (some e)) := by
  have key : ∀ a : List String,
      ((∃ e, (cmdValidateCompletionArgs a w).1 = Outcome.returned (some e)) ↔
        ¬ ∃ s, a = [s] ∧ (s = "bash" ∨ s = "zsh" ∨ s = "powershell")) := by
    intro a
    rw [← validate_returned_none_iff a w]
    obtain ⟨r, hr⟩ := validate_returns a w
    rw [hr]
    cases r <;> simp
  refine ⟨validate_returned_none_iff args w, key args, ?_, ?_, ?_, ?_, ?_⟩
  · exact (key _).2 (by simp)
  · exact (key _).2 (by simp)
  · exact (key _).2 (by simp)
  · exact (key _).2 (by simp)
  · exact (key _).2 (by simp)

theorem unsupported_message_ne_count_message (s : String) :
    s ++ " is not a supported shell" ≠
      "completion requires only 1 shell argument (options: bash, zsh, powershell)" := by
  intro h
  have h2 := congrArg (fun t : String => t.data.reverse.head?) h
  simp only [String.data_append, List.reverse_append] at h2
  have e1 : (" is not a supported shell" : String).data.reverse =
      'l' :: "lehs detroppus a ton si ".data := by decide
  have e2 : ("completion requires only 1 shell argument (options: bash, zsh, powershell)" :
      String).data.reverse.head? = some ')' := by decide
  rw [e1, e2] at h2
  simp at h2

/-- C2: on every argument sequence whose length is not 1, `cmdValidateCompletionArgs`
returns the argument-count error, whose message is exactly `completion requires only 1
shell argument (options: bash, zsh, powershell)`, that is, the three supported shell
names joined by a comma and a blank inside the fixed text; the error does not depend on
the contents of the sequence. -/
theorem C2_validate_argument_count (args : List String) (w : World)
    (h : args.length ≠ 1) :
    (cmdValidateCompletionArgs args w).1 = Outcome.returned (some
      ⟨"completion requires only 1 shell argument (options: bash, zsh, powershell)"⟩) ∧
    "completion requires only 1 shell argument (options: bash, zsh, powershell)" =
      "completion requires only 1 shell argument (options: "
        ++ String.intercalate ", " supportedShells ++ ")" := by
  constructor
  · rw [validate_of_length_ne args w h]
    rfl
  · decide

/-- Witness of C2: the empty sequence and two sequences of two arguments yield the
identical argument-count error. -/
theorem C2_validate_argument_count_witness :
    (cmdValidateCompletionArgs [] World.initial).1 = Outcome.returned (some
      ⟨"completion requires only 1 shell argument (options: bash, zsh, powershell)"⟩) ∧
    (cmdValidateCompletionArgs ["bash", "zsh"] World.initial).1 =
      (cmdValidateCompletionArgs [] World.initial).1 ∧
    (cmdValidateCompletionArgs ["fish", "csh"] World.initial).1 =
      (cmdValidateCompletionArgs [] World.initial).1 :=
  ⟨(C2_validate_argument_count [] World.initial (by decide)).1,
    ((C2_validate_argument_count ["bash", "zsh"] World.initial (by decide)).1).trans
      ((C2_validate_argument_count [] World.initial (by decide)).1).symm,
    ((C2_validate_argument_count ["fish", "csh"] World.initial (by decide)).1).trans
      ((C2_validate_argument_count [] World.initial (by decide)).1).symm⟩

/-- C3: on every single-argument sequence `[s]` where `s` is none of `bash`, `zsh`,
`powershell`, `cmdValidateCompletionArgs` returns the unsupported-shell error, whose
message is exactly `s` followed by ` is not a supported shell`, and that error differs
from the argument-count error. -/
theorem C3_validate_unsupported_shell (s : String) (w : World)
    (h : ¬ (s = "bash" ∨ s = "zsh" ∨ s = "powershell")) :
    (cmdValidateCompletionArgs [s] w).1 =
      Outcome.returned (some ⟨s ++ " is not a supported shell"⟩) ∧
    (⟨s ++ " is not a supported shell"⟩ : GoError) ≠
      ⟨"completion requires only 1 shell argument (options: bash, zsh, powershell)"⟩ := by
  constructor
  · rw [validate_of_unsupported s w h]
  · intro hE
    exact unsupported_message_ne_count_message s (congrArg GoError.msg hE)

/-- Witness of C3: `["fish"]` is rejected with `fish is not a supported shell`. -/
theorem C3_validate_unsupported_shell_witness :
    ¬ ("fish" = "bash" ∨ "fish" = "zsh" ∨ "fish" = "powershell") ∧
    (cmdValidateCompletionArgs ["fish"] World.initial).1 =
      Outcome.returned (some ⟨"fish is not a supported shell"⟩) :=
  ⟨by decide, (C3_validate_unsupported_shell "fish" World.initial (by decide)).1⟩

/-- C10: `cmdValidateCompletionArgs` makes exactly one logger call, at error severity,
on every failing input and none on every accepted input. On a wrong argument count it
returns the argument-count error and the log has grown by the single entry with the
message `Failed to validate args for completion command` carrying that same error; on one
unsupported shell name it returns the unsupported-shell error and the log has grown by
the single entry with that message carrying that same error; on one supported shell
name it returns `nil` and leaves the log, and everything else, as it was. So on every
input either `nil` is returned with nothing logged, or the error returned is the one in
the single entry logged. -/
theorem C10_validate_logs_once (args : List String) (w : World) :
    (args.length ≠ 1 →
      cmdValidateCompletionArgs args w =
        (Outcome.returned (some
          ⟨"completion requires only 1 shell argument (options: bash, zsh, powershell)"⟩),
          { w with log := w.log ++
            [⟨Severity.Error, "Failed to validate args for completion command",
              ⟨"completion requires only 1 shell argument (options: bash, zsh, powershell)"⟩⟩] })) ∧
    (∀ s, args = [s] → ¬ (s = "bash" ∨ s = "zsh" ∨ s = "powershell") →
      cmdValidateCompletionArgs args w =
        (Outcome.returned (some ⟨s ++ " is not a supported shell"⟩),
          { w with log := w.log ++
            [⟨Severity.Error, "Failed to validate args for completion command",
              ⟨s ++ " is not a supported shell"⟩⟩] })) ∧
    (∀ s, args = [s] → (s = "bash" ∨ s = "zsh" ∨ s = "powershell") →
      cmdValidateCompletionArgs args w = (Outcome.returned none, w)) ∧
    (((cmdValidateCompletionArgs args w).1 = Outcome.returned none ∧
        (cmdValidateCompletionArgs args w).2 = w) ∨
      (∃ e, (cmdValidateCompletionArgs args w).1 = Outcome.returned (some e) ∧
        (cmdValidateCompletionArgs args w).2 = { w with log := w.log ++
          [⟨Severity.Error, "Failed to validate args for completion command", e⟩] })) := by
  refine ⟨?_, ?_, ?_, ?_⟩
  · intro hl
    rw [validate_of_length_ne args w hl]
    rfl
  · rintro s rfl hs
    rw [validate_of_unsupported s w hs]
    rfl
  · rintro s rfl hs
    exact validate_of_supported s w hs
  · by_cases hl : args.length = 1
    · obtain ⟨s, rfl⟩ := length_eq_one_cases args hl
      by_cases hs : s = "bash" ∨ s = "zsh" ∨ s = "powershell"
      · left
        rw [validate_of_supported s w hs]
        exact ⟨rfl, rfl⟩
      · right
        rw [validate_of_unsupported s w hs]
        exact ⟨_, rfl, rfl⟩
    · right
      rw [validate_of_length_ne args w hl]
      exact ⟨_, rfl, rfl⟩

/-- Witness of C10: from the initial state, no argument and `["bash", "zsh"]` each leave
exactly the one error entry carrying the argument-count error that is returned, `["fish"]`
leaves exactly the one error entry carrying `fish is not a supported shell`, which is
returned, and `["bash"]` returns `nil` and leaves the log empty. -/
theorem C10_validate_logs_once_witness :
    cmdValidateCompletionArgs [] World.initial =
      (Outcome.returned (some
        ⟨"completion requires only 1 shell argument (options: bash, zsh, powershell)"⟩),
        ⟨"", "", [⟨Severity.Error, "Failed to validate args for completion command",
          ⟨"completion requires only 1 shell argument (options: bash, zsh, powershell)"⟩⟩],
          []⟩) ∧
    cmdValidateCompletionArgs ["bash", "zsh"] World.initial =
      (Outcome.returned (some
        ⟨"completion requires only 1 shell argument (options: bash, zsh, powershell)"⟩),
        ⟨"", "", [⟨Severity.Error, "Failed to validate args for completion command",
          ⟨"completion requires only 1 shell argument (options: bash, zsh, powershell)"⟩⟩],
          []⟩) ∧
    cmdValidateCompletionArgs ["fish"] World.initial =
      (Outcome.returned (some ⟨"fish is not a supported shell"⟩),
        ⟨"", "", [⟨Severity.Error, "Failed to validate args for completion command",
          ⟨"fish is not a supported shell"⟩⟩], []⟩) ∧
    cmdValidateCompletionArgs ["bash"] World.initial =
      (Outcome.returned none, ⟨"", "", [], []⟩) :=
  ⟨(C10_validate_logs_once [] World.initial).1 (by decide),
    (C10_validate_logs_once ["bash", "zsh"] World.initial).1 (by decide),
    (C10_validate_logs_once ["fish"] World.initial).2.1 "fish" rfl (by decide),
    (C10_validate_logs_once ["bash"] World.initial).2.2.1 "bash" rfl (by decide)⟩

theorem run_bash (root : Command) (rest : List String) (w : World) :
    cmdRunCompletion root ("bash" :: rest) w =
      logAndReturn (root.invoke (GenCall.GenBashCompletionV2 Writer.Stdout true) w) := by
  unfold cmdRunCompletion logAndReturn
  cases h : (root.invoke (GenCall.GenBashCompletionV2 Writer.Stdout true) w).1 <;> simp [h]

theorem run_zsh (root : Command) (rest : List String) (w : World) :
    cmdRunCompletion root ("zsh" :: rest) w =
      logAndReturn (root.invoke (GenCall.GenZshCompletion Writer.Stdout) w) := by
  unfold cmdRunCompletion logAndReturn
  cases h : (root.invoke (GenCall.GenZshCompletion Writer.Stdout) w).1 <;> simp [h]

theorem run_powershell (root : Command) (rest : List String) (w : World) :
    cmdRunCompletion root ("powershell" :: rest) w =
      logAndReturn (root.invoke (GenCall.GenPowerShellCompletionWithDesc Writer.Stdout) w) := by
  unfold cmdRunCompletion logAndReturn
  cases h : (root.invoke (GenCall.GenPowerShellCompletionWithDesc Writer.Stdout) w).1 <;>
    simp [h]

theorem run_unsupported (root : Command) (s : String) (rest : List String) (w : World)
    (h : ¬ (s = "bash" ∨ s = "zsh" ∨ s = "powershell")) :
    cmdRunCompletion root (s :: rest) w =
      (Outcome.panicked (PanicValue.logged "Failed to run the completion command"
          ⟨s ++ " is not a supported shell type"⟩),
        { w with log := w.log ++ [⟨Severity.Panic, "Failed to run the completion command",
          ⟨s ++ " is not a supported shell type"⟩⟩] }) := by
  have h1 : s ≠ "bash" := fun e => h (Or.inl e)
  have h2 : s ≠ "zsh" := fun e => h (Or.inr (Or.inl e))
  have h3 : s ≠ "powershell" := fun e => h (Or.inr (Or.inr e))
  unfold cmdRunCompletion
  simp [h1, h2, h3, cmdLogger.Panic]

theorem logAndReturn_fst (r : Option GoError × World) :
    (logAndReturn r).1 = Outcome.returned r.1 := by
  unfold logAndReturn
  cases h : r.1 <;> simp

theorem logAndReturn_calls (r : Option GoError × World) :
    (logAndReturn r).2.calls = r.2.calls := by
  unfold logAndReturn
  cases h : r.1 <;> simp [cmdLogger.Error]

theorem logAndReturn_stdout (r : Option GoError × World) :
    (logAndReturn r).2.stdout = r.2.stdout := by
  unfold logAndReturn
  cases h : r.1 <;> simp [cmdLogger.Error]

theorem logAndReturn_stderr (r : Option GoError × World) :
    (logAndReturn r).2.stderr = r.2.stderr := by
  unfold logAndReturn
  cases h : r.1 <;> simp [cmdLogger.Error]

theorem logAndReturn_log (r : Option GoError × World) :
    (logAndReturn r).2.log = r.2.log ++
      (match r.1 with
        | some e => [⟨Severity.Error, "Failed to run the completion command", e⟩]
        | none => []) := by
  unfold logAndReturn
  cases h : r.1 <;> simp [cmdLogger.Error]

theorem invoke_fst (root : Command) (c : GenCall) (w : World) :
    (root.invoke c w).1 = (root.generate w c).2 := rfl

theorem invoke_calls (root : Command) (c : GenCall) (w : World) :
    (root.invoke c w).2.calls = w.calls ++ [c] := rfl

theorem invoke_log (root : Command) (c : GenCall) (w : World) :
    (root.invoke c w).2.log = w.log := by
  unfold Command.invoke World.write
  cases c.out <;> rfl

theorem invoke_stdout (root : Command) (c : GenCall) (w : World) (h : c.out = Writer.Stdout) :
    (root.invoke c w).2.stdout = w.stdout ++ (root.generate w c).1 ∧
    (root.invoke c w).2.stderr = w.stderr := by
  unfold Command.invoke World.write
  rw [h]
  exact ⟨rfl, rfl⟩

theorem propagates_of_eq (root : Command) (args : List String) (w : World) (c : GenCall)
    (h : cmdRunCompletion root args w = logAndReturn (root.invoke c w)) :
    PropagatesResult root args w c := by
  unfold PropagatesResult
  rw [h]
  refine ⟨?_, ?_, ?_⟩
  · rw [logAndReturn_fst, invoke_fst]
  · rw [logAndReturn_calls, invoke_calls]
  · rw [logAndReturn_log, invoke_log, invoke_fst]

/-- C4: for each supported shell name, `cmdRunCompletion` invokes exactly the matching
generator of the root command, exactly once and on standard output, and no other
generator: `bash` calls the bash-v2 generator with descriptions, `zsh` the zsh generator,
`powershell` the PowerShell generator with descriptions; what the generator writes is
appended to standard output and nothing goes to standard error. -/
theorem C4_run_invokes_matching_generator (root : Command) (rest : List String) (w : World) :
    ((cmdRunCompletion root ("bash" :: rest) w).2.calls =
        w.calls ++ [GenCall.GenBashCompletionV2 Writer.Stdout true] ∧
      (cmdRunCompletion root ("bash" :: rest) w).2.stdout =
        w.stdout ++ (root.GenBashCompletionV2 w true).1 ∧
      (cmdRunCompletion root ("bash" :: rest) w).2.stderr = w.stderr) ∧
    ((cmdRunCompletion root ("zsh" :: rest) w).2.calls =
        w.calls ++ [GenCall.GenZshCompletion Writer.Stdout] ∧
      (cmdRunCompletion root ("zsh" :: rest) w).2.stdout =
        w.stdout ++ (root.GenZshCompletion w).1 ∧
      (cmdRunCompletion root ("zsh" :: rest) w).2.stderr = w.stderr) ∧
    ((cmdRunCompletion root ("powershell" :: rest) w).2.calls =
        w.calls ++ [GenCall.GenPowerShellCompletionWithDesc Writer.Stdout] ∧
      (cmdRunCompletion root ("powershell" :: rest) w).2.stdout =
        w.stdout ++ (root.GenPowerShellCompletionWithDesc w).1 ∧
      (cmdRunCompletion root ("powershell" :: rest) w).2.stderr = w.stderr) := by
  refine ⟨?_, ?_, ?_⟩
  · rw [run_bash, logAndReturn_calls, logAndReturn_stdout, logAndReturn_stderr]
    exact ⟨rfl, invoke_stdout root _ w rfl⟩
  · rw [run_zsh, logAndReturn_calls, logAndReturn_stdout, logAndReturn_stderr]
    exact ⟨rfl, invoke_stdout root _ w rfl⟩
  · rw [run_powershell, logAndReturn_calls, logAndReturn_stdout, logAndReturn_stderr]
    exact ⟨rfl, invoke_stdout root _ w rfl⟩

/-- C5: for every supported shell name and every outcome of the generator,
`cmdRunCompletion` returns exactly the result of the generator it invoked (once): an
error `e` is logged exactly once at error severity and that same `e` is returned; on
success `nil` is returned and nothing is logged. -/
theorem C5_run_propagates_generator_result (root : Command) (rest : List String)
    (w : World) :
    PropagatesResult root ("bash" :: rest) w (GenCall.GenBashCompletionV2 Writer.Stdout true) ∧
    PropagatesResult root ("zsh" :: rest) w (GenCall.GenZshCompletion Writer.Stdout) ∧
    PropagatesResult root ("powershell" :: rest) w
      (GenCall.GenPowerShellCompletionWithDesc Writer.Stdout) :=
  ⟨propagates_of_eq _ _ _ _ (run_bash root rest w),
    propagates_of_eq _ _ _ _ (run_zsh root rest w),
    propagates_of_eq _ _ _ _ (run_powershell root rest w)⟩

theorem execute_of_failed (root : Command) (args : List String) (w : World)
    (h : (cmdValidateCompletionArgs args w).1 ≠ Outcome.returned none) :
    completionCmd.execute root args w = cmdValidateCompletionArgs args w := by
  unfold completionCmd.execute
  split
  · rename_i w1 heq
    rw [heq] at h
    exact absurd rfl h
  · rfl

theorem execute_of_supported (root : Command) (s : String) (w : World)
    (h : s = "bash" ∨ s = "zsh" ∨ s = "powershell") :
    completionCmd.execute root [s] w = cmdRunCompletion root [s] w := by
  unfold completionCmd.execute
  rw [validate_of_supported s w h]

theorem validate_failed_unchanged (args : List String) (w : World) :
    (cmdValidateCompletionArgs args w).2.calls = w.calls ∧
    (cmdValidateCompletionArgs args w).2.stdout = w.stdout ∧
    (cmdValidateCompletionArgs args w).2.stderr = w.stderr := by
  by_cases hl : args.length = 1
  · obtain ⟨s, rfl⟩ := length_eq_one_cases args hl
    by_cases hs : s = "bash" ∨ s = "zsh" ∨ s = "powershell"
    · rw [validate_of_supported s w hs]
      exact ⟨rfl, rfl, rfl⟩
    · rw [validate_of_unsupported s w hs]
      exact ⟨rfl, rfl, rfl⟩
  · rw [validate_of_length_ne args w hl]
    exact ⟨rfl, rfl, rfl⟩

/-- C6: in the two-step flow of the command, whenever `cmdValidateCompletionArgs` fails
the run stops there: the outcome of the command is the outcome of the validation, an
error is its result, no generator is invoked and nothing is written to standard
output. -/
theorem C6_failed_validation_stops (root : Command) (args : List String) (w : World)
    (h : (cmdValidateCompletionArgs args w).1 ≠ Outcome.returned none) :
    completionCmd.execute root args w = cmdValidateCompletionArgs args w ∧
    (∃ e, (completionCmd.execute root args w).1 = Outcome.returned (some e)) ∧
    (completionCmd.execute root args w).2.calls = w.calls ∧
    (completionCmd.execute root args w).2.stdout = w.stdout := by
  rw [execute_of_failed root args w h]
  refine ⟨rfl, ?_, (validate_failed_unchanged args w).1, (validate_failed_unchanged args w).2.1⟩
  obtain ⟨r, hr⟩ := validate_returns args w
  cases r with
  | none => exact absurd hr h
  | some e => exact ⟨e, hr⟩

/-- Witness of C6: `completion fish` ends with the error `fish is not a supported
shell`, with empty standard output and no generator call. -/
theorem C6_failed_validation_stops_witness :
    (cmdValidateCompletionArgs ["fish"] World.initial).1 ≠ Outcome.returned none ∧
    (completionCmd.execute sampleRoot ["fish"] World.initial).1 =
      Outcome.returned (some ⟨"fish is not a supported shell"⟩) ∧
    (completionCmd.execute sampleRoot ["fish"] World.initial).2.stdout = "" ∧
    (completionCmd.execute sampleRoot ["fish"] World.initial).2.calls = [] :=
  have h := C6_failed_validation_stops sampleRoot ["fish"] World.initial (by decide)
  ⟨by decide, by rw [h.1]; decide, h.2.2.2, h.2.2.1⟩

theorem generate_deterministic (root : Command) (hdet : root.Deterministic)
    (c : GenCall) (w w' : World) : root.generate w c = root.generate w' c := by
  obtain ⟨hb, hz, hp⟩ := hdet
  cases c with
  | GenBashCompletionV2 out d => exact hb w w' d
  | GenZshCompletion out => exact hz w w'
  | GenPowerShellCompletionWithDesc out => exact hp w w'

theorem logAndReturn_invoke_twice (root : Command) (hdet : root.Deterministic)
    (c : GenCall) (hc : c.out = Writer.Stdout) (w : World) :
    (logAndReturn (root.invoke c (logAndReturn (root.invoke c w)).2)).1 =
      (logAndReturn (root.invoke c w)).1 ∧
    (logAndReturn (root.invoke c w)).2.stdout = w.stdout ++ (root.generate w c).1 ∧
    (logAndReturn (root.invoke c (logAndReturn (root.invoke c w)).2)).2.stdout =
      (logAndReturn (root.invoke c w)).2.stdout ++ (root.generate w c).1 := by
  refine ⟨?_, ?_, ?_⟩
  · rw [logAndReturn_fst, logAndReturn_fst, invoke_fst, invoke_fst,
      generate_deterministic root hdet c _ w]
  · rw [logAndReturn_stdout, (invoke_stdout root c w hc).1]
  · rw [logAndReturn_stdout, (invoke_stdout root c _ hc).1,
      generate_deterministic root hdet c _ w]

theorem run_twice (root : Command) (hdet : root.Deterministic) (s : String) (w : World)
    (hs : s = "bash" ∨ s = "zsh" ∨ s = "powershell") :
    (cmdRunCompletion root [s] (cmdRunCompletion root [s] w).2).1 =
      (cmdRunCompletion root [s] w).1 ∧
    ∃ out, (cmdRunCompletion root [s] w).2.stdout = w.stdout ++ out ∧
      (cmdRunCompletion root [s] (cmdRunCompletion root [s] w).2).2.stdout =
        (cmdRunCompletion root [s] w).2.stdout ++ out := by
  rcases hs with rfl | rfl | rfl
  · simp only [run_bash]
    have h := logAndReturn_invoke_twice root hdet
      (GenCall.GenBashCompletionV2 Writer.Stdout true) rfl w
    exact ⟨h.1, _, h.2.1, h.2.2⟩
  · simp only [run_zsh]
    have h := logAndReturn_invoke_twice root hdet (GenCall.GenZshCompletion Writer.Stdout) rfl w
    exact ⟨h.1, _, h.2.1, h.2.2⟩
  · simp only [run_powershell]
    have h := logAndReturn_invoke_twice root hdet
      (GenCall.GenPowerShellCompletionWithDesc Writer.Stdout) rfl w
    exact ⟨h.1, _, h.2.1, h.2.2⟩

/-- C7: when the generators of the root command are deterministic functions of the
command tree, invoking the completion command twice in succession with the same valid
shell argument gives the same result both times and appends the same bytes to standard
output both times; this holds of the whole command and of `cmdRunCompletion` alone. -/
theorem C7_completion_repeatable (root : Command) (hdet : root.Deterministic)
    (args : List String) (w : World)
    (hvalid : (cmdValidateCompletionArgs args w).1 = Outcome.returned none) :
    ((completionCmd.execute root args (completionCmd.execute root args w).2).1 =
        (completionCmd.execute root args w).1 ∧
      ∃ out, (completionCmd.execute root args w).2.stdout = w.stdout ++ out ∧
        (completionCmd.execute root args (completionCmd.execute root args w).2).2.stdout =
          (completionCmd.execute root args w).2.stdout ++ out) ∧
    ((cmdRunCompletion root args (cmdRunCompletion root args w).2).1 =
        (cmdRunCompletion root args w).1 ∧
      ∃ out, (cmdRunCompletion root args w).2.stdout = w.stdout ++ out ∧
        (cmdRunCompletion root args (cmdRunCompletion root args w).2).2.stdout =
          (cmdRunCompletion root args w).2.stdout ++ out) := by
  obtain ⟨s, rfl, hs⟩ := (validate_returned_none_iff args w).1 hvalid
  refine ⟨?_, run_twice root hdet s w hs⟩
  simp only [execute_of_supported root s _ hs]
  exact run_twice root hdet s w hs

/-- Witness of C7: two successive runs of `completion zsh` on the sample root command
each write the same script and both succeed. -/
theorem C7_completion_repeatable_witness :
    sampleRoot.Deterministic ∧
    (cmdValidateCompletionArgs ["zsh"] World.initial).1 = Outcome.returned none ∧
    (completionCmd.execute sampleRoot ["zsh"]
        (completionCmd.execute sampleRoot ["zsh"] World.initial).2).1 =
      (completionCmd.execute sampleRoot ["zsh"] World.initial).1 ∧
    (completionCmd.execute sampleRoot ["zsh"] World.initial).2.stdout = "#compdef medusa" ∧
    (completionCmd.execute sampleRoot ["zsh"]
        (completionCmd.execute sampleRoot ["zsh"] World.initial).2).2.stdout =
      "#compdef medusa#compdef medusa" :=
  ⟨⟨fun _ _ _ => rfl, fun _ _ => rfl, fun _ _ => rfl⟩, by decide,
    (C7_completion_repeatable sampleRoot ⟨fun _ _ _ => rfl, fun _ _ => rfl, fun _ _ => rfl⟩
      ["zsh"] World.initial (by decide)).1.1,
    by decide, by decide⟩

/-- C8: on every argument sequence that `cmdValidateCompletionArgs` accepts,
`cmdRunCompletion` reads `args[0]` in bounds and takes one of the three named cases of
the switch, never the default one: it returns instead of panicking, having made one
generator call and no logger call at panic severity. The names validation accepts (the
contents of `supportedShells`) are exactly the names the switch handles. -/
theorem C8_accepted_args_are_dispatched (root : Command) (args : List String)
    (w w' : World)
    (h : (cmdValidateCompletionArgs args w).1 = Outcome.returned none) :
    (∃ err, (cmdRunCompletion root args w').1 = Outcome.returned err) ∧
    (cmdRunCompletion root args w').2.calls.length = w'.calls.length + 1 ∧
    (∀ entry ∈ (cmdRunCompletion root args w').2.log,
      entry.severity = Severity.Panic → entry ∈ w'.log) ∧
    (∀ s, s ∈ supportedShells ↔
      ∃ err, (cmdRunCompletion root [s] w').1 = Outcome.returned err) := by
  obtain ⟨s, rfl, hs⟩ := (validate_returned_none_iff args w).1 h
  have hret : ∀ t : String, (t = "bash" ∨ t = "zsh" ∨ t = "powershell") →
      ∃ c, cmdRunCompletion root [t] w' = logAndReturn (root.invoke c w') := by
    intro t ht
    rcases ht with rfl | rfl | rfl
    · exact ⟨_, run_bash root [] w'⟩
    · exact ⟨_, run_zsh root [] w'⟩
    · exact ⟨_, run_powershell root [] w'⟩
  obtain ⟨c, hc⟩ := hret s hs
  refine ⟨⟨_, by rw [hc, logAndReturn_fst]⟩, ?_, ?_, ?_⟩
  · rw [hc, logAndReturn_calls, invoke_calls]
    simp
  · intro entry hmem hsev
    rw [hc, logAndReturn_log, invoke_log] at hmem
    rcases List.mem_append.1 hmem with hm | hm
    · exact hm
    · cases hres : (root.invoke c w').1 with
      | none => rw [hres] at hm; simp at hm
      | some e =>
        rw [hres] at hm
        simp at hm
        rw [hm] at hsev
        simp at hsev
  · intro t
    constructor
    · intro ht
      have ht' : t = "bash" ∨ t = "zsh" ∨ t = "powershell" := by
        simpa [supportedShells] using ht
      obtain ⟨c', hc'⟩ := hret t ht'
      exact ⟨_, by rw [hc', logAndReturn_fst]⟩
    · rintro ⟨err, herr⟩
      by_contra hn
      have hn' : ¬ (t = "bash" ∨ t = "zsh" ∨ t = "powershell") := by
        simpa [supportedShells] using hn
      rw [run_unsupported root t [] w' hn'] at herr
      simp at herr

/-- Witness of C8: `["powershell"]` is accepted and dispatched. -/
theorem C8_accepted_args_are_dispatched_witness :
    (cmdValidateCompletionArgs ["powershell"] World.initial).1 = Outcome.returned none ∧
    (∃ err, (cmdRunCompletion sampleRoot ["powershell"] World.initial).1 =
      Outcome.returned err) :=
  ⟨by decide,
    (C8_accepted_args_are_dispatched sampleRoot ["powershell"] World.initial World.initial
      (by decide)).1⟩

/-- C9: on every argument sequence whose first element `s` is none of `bash`, `zsh`,
`powershell`, `cmdRunCompletion` invokes no generator and writes nothing, makes one
logger call at panic severity, the highest, with an error whose message is exactly `s`
followed by ` is not a supported shell type`, and ends in a panic instead of
returning. -/
theorem C9_run_unsupported_panics (root : Command) (s : String) (rest : List String)
    (w : World) (h : ¬ (s = "bash" ∨ s = "zsh" ∨ s = "powershell")) :
    (cmdRunCompletion root (s :: rest) w).1 =
      Outcome.panicked (PanicValue.logged "Failed to run the completion command"
        ⟨s ++ " is not a supported shell type"⟩) ∧
    (cmdRunCompletion root (s :: rest) w).2 =
      { w with log := w.log ++ [⟨Severity.Panic, "Failed to run the completion command",
        ⟨s ++ " is not a supported shell type"⟩⟩] } ∧
    (cmdRunCompletion root (s :: rest) w).2.calls = w.calls ∧
    (cmdRunCompletion root (s :: rest) w).2.stdout = w.stdout ∧
    (∀ err, (cmdRunCompletion root (s :: rest) w).1 ≠ Outcome.returned err) ∧
    (∀ sev : Severity, sev.rank ≤ Severity.Panic.rank) := by
  rw [run_unsupported root s rest w h]
  refine ⟨rfl, rfl, rfl, rfl, ?_, ?_⟩
  · intro err herr
    simp at herr
  · intro sev
    cases sev <;> simp [Severity.rank]

/-- Witness of C9: `cmdRunCompletion` on `["fish"]` panics after logging `fish is not a
supported shell type`, without calling a generator. -/
theorem C9_run_unsupported_panics_witness :
    ¬ ("fish" = "bash" ∨ "fish" = "zsh" ∨ "fish" = "powershell") ∧
    (cmdRunCompletion sampleRoot ["fish"] World.initial).1 =
      Outcome.panicked (PanicValue.logged "Failed to run the completion command"
        ⟨"fish is not a supported shell type"⟩) ∧
    (cmdRunCompletion sampleRoot ["fish"] World.initial).2.calls = [] :=
  ⟨by decide, (C9_run_unsupported_panics sampleRoot "fish" [] World.initial (by decide)).1,
    (C9_run_unsupported_panics sampleRoot "fish" [] World.initial (by decide)).2.2.1⟩

end Medusa
